import Mathlib

/-!
Verification development for the KMGI Rotation Scheduling & Compliance Engine.

The definitions below are a shallow embedding of the Python subsystem in
`src/rules/rules_engine.py`, `src/audit/rotation_audit.py` and
`src/database/db.py`:

* timestamps are modelled as integer epoch seconds; the wall clock
  (`datetime.utcnow()`) is passed explicitly as a `Clock` snapshot;
* fractional minute arithmetic (`total_seconds() / 60`) is carried out in `ℚ`;
  Python's `int(...)` truncation and `round(x, 1)` (modelled as ideal decimal
  round-half-to-even) are made explicit;
* Python `dict.get(key, default)` is modelled by `Option` fields plus `getD`
  at the use site; a missing YAML section is an `Option` that is `none`;
* Python dictionaries with insertion order are modelled as association lists;
* SQLAlchemy queries are modelled as filters over an in-memory list of rows.
-/

/-- Python `int(q)`: truncation of a rational towards zero. -/
def pyInt (q : ℚ) : Int :=
  if q < 0 then -(Rat.floor (-q)) else Rat.floor q

/-- Ideal round-half-to-even of a rational to an integer
(the behaviour Python's `round` has on exactly-representable values). -/
def roundHE (q : ℚ) : Int :=
  let f := Rat.floor q
  if q - f < 1/2 then f
  else if q - f = 1/2 then (if f % 2 = 0 then f else f + 1)
  else f + 1

/-- Python `round(q, 1)`. -/
def round1 (q : ℚ) : ℚ :=
  (roundHE (10 * q) : ℚ) / 10

/-- Python truthiness of an optional string (`None` and `""` are falsy). -/
def strTruthy : Option String → Bool
  | none => false
  | some s => !s.isEmpty

/-- Python `lst[-n:]` (note `lst[-0:]` is the whole list). -/
def pyTailSlice (n : Nat) (l : List α) : List α :=
  if n = 0 then l else l.drop (l.length - n)

/-- Python `str(x)` for an optional string (`None` prints as `"None"`). -/
def pyStr : Option String → String
  | none => "None"
  | some s => s

/-- Lookup in an association list (Python `d.get(k, 0)`-style access). -/
def alookup [BEq α] (k : α) : List (α × β) → Option β
  | [] => none
  | (k', v) :: rest => if k' == k then some v else alookup k rest

/-- Python dict assignment `d[k] = v`: update in place if the key exists
(keeping its position), else append. -/
def aupsert [BEq α] (k : α) (v : β) : List (α × β) → List (α × β)
  | [] => [(k, v)]
  | (k', v') :: rest => if k' == k then (k, v) :: rest else (k', v') :: aupsert k v rest

/-! ## Data model (`src/database/models.py`) -/

/-- A catalog entry (`Song`).  Only the attributes the scheduling and audit
logic reads are modelled.  `last_played` is in epoch seconds. -/
structure Song where
  id : Nat
  title : String
  artist : String
  category : Option String := none
  genre : Option String := none
  mood : Option String := none
  tempo : Option String := none
  gender : Option String := none
  explicit : Bool := false
  duration_seconds : Option Nat := none
  min_rest_minutes : Option Nat := none
  last_played : Option Int := none
  is_active : Bool := true
deriving DecidableEq, Repr

/-- A play-history row (`PlayLog`) with its `song` relationship resolved
(`play.song` is `none` when the referenced song row is gone). -/
structure PlayRec where
  song_id : Nat
  song : Option Song := none
  played_at : Int
  hour : Option Nat := none
  completed : Bool := false
  skipped : Bool := false
deriving DecidableEq, Repr

/-- A rule violation (`RuleViolation`).  The wall-clock `timestamp` metadata
field is not modelled: no logic in the subsystem reads it. -/
structure RuleViolation where
  rule_name : String
  rule_type : String
  severity : String
  message : String
  song_id : Option Nat := none
  song_title : Option String := none
deriving DecidableEq, Repr

/-! ## Rule configuration (the YAML document loaded into `self.rules`) -/

/-- The `settings` section; `none` fields model absent keys. -/
structure Settings where
  song_separation : Option Nat := none
  artist_separation : Option Nat := none
deriving DecidableEq, Repr

/-- One entry of an hourly rule-set's `rules` list
(`{category, percentage}`; both read with `.get`). -/
structure HourlyCatRule where
  category : Option String := none
  percentage : Option Nat := none
deriving DecidableEq, Repr

/-- One entry of an hourly rule-set's `restrictions` list. -/
structure Restriction where
  action : Option String := none
  mood : List String := []
  reason : Option String := none
deriving DecidableEq, Repr

/-- One hourly rule-set (`hourly_rules[i]`). -/
structure HourlyRuleSet where
  name : Option String := none
  hours : List Nat := []
  rules : List HourlyCatRule := []
  restrictions : List Restriction := []
deriving DecidableEq, Repr

/-- The `tempo_rules` section. -/
structure TempoRules where
  max_consecutive_slow : Option Nat := none
  max_consecutive_fast : Option Nat := none
deriving DecidableEq, Repr

/-- The `gender_rules` section. -/
structure GenderRules where
  max_consecutive_same_gender : Option Nat := none
deriving DecidableEq, Repr

/-- One entry of `genre_rules.hourly_limits` (`genre` is a required key). -/
structure GenreLimit where
  genre : String
  max_per_hour : Option Nat := none
deriving DecidableEq, Repr

/-- The `genre_rules` section. -/
structure GenreRules where
  same_genre_separation : Option Nat := none
  hourly_limits : List GenreLimit := []
deriving DecidableEq, Repr

/-- One dayparting rule of `special_rules.dayparting`.  `condition_explicit`
models the optional `explicit` key of the `condition` sub-dict (`none` when
the key is absent). -/
structure DaypartRule where
  name : Option String := none
  hours : Option (List Nat) := none
  days : Option (List Nat) := none
  condition_explicit : Option Bool := none
deriving DecidableEq, Repr

/-- The `special_rules` section. -/
structure SpecialRules where
  dayparting : List DaypartRule := []
deriving DecidableEq, Repr

/-- The whole rules document (`self.rules`); each section is `none` when the
corresponding top-level key is absent. -/
structure Rules where
  settings : Option Settings := none
  hourly_rules : Option (List HourlyRuleSet) := none
  tempo_rules : Option TempoRules := none
  gender_rules : Option GenderRules := none
  genre_rules : Option GenreRules := none
  special_rules : Option SpecialRules := none
deriving DecidableEq, Repr

/-- `not self.rules`: for a schema-conformant document the dict is empty
exactly when every known section is absent. -/
def Rules.isEmptyDoc (r : Rules) : Bool :=
  r.settings.isNone && r.hourly_rules.isNone && r.tempo_rules.isNone &&
  r.gender_rules.isNone && r.genre_rules.isNone && r.special_rules.isNone

/-! ## Evaluation context -/

/-- A snapshot of `datetime.utcnow()`: epoch seconds plus the derived
`.hour` and `.weekday()` used as defaults for a missing context key. -/
structure Clock where
  now : Int
  now_hour : Nat := 0
  now_day : Nat := 0
deriving DecidableEq, Repr

/-- `(utcnow() - t).total_seconds() / 60` as an exact rational. -/
def minutesSince (c : Clock) (t : Int) : ℚ :=
  ((c.now - t : Int) : ℚ) / 60

/-- The `context` dictionary handed to the checker; absent keys are `none`
or the empty collection (`context.get(key, default)`). -/
structure Context where
  recent_plays : List PlayRec := []
  recent_songs : List Song := []
  hour : Option Nat := none
  day_of_week : Option Nat := none
  hourly_genre_counts : List (String × Nat) := []
deriving Repr

/-! ## Constraint checker (`RulesEngine.check_*` / `can_play_song`) -/

/-- `RulesEngine.check_song_separation`. -/
def check_song_separation (r : Rules) (c : Clock) (song : Song)
    (_ctx : Context) : List RuleViolation :=
  let settings := r.settings.getD {}
  let min_separation := settings.song_separation.getD 180
  match song.last_played with
  | none => []
  | some t =>
    let minutes_since := minutesSince c t
    if minutes_since < (min_separation : ℚ) then
      [{ rule_name := "Song Separation"
         rule_type := "separation"
         severity := "critical"
         message := "Song played " ++ toString (pyInt minutes_since) ++
           " minutes ago (min: " ++ toString min_separation ++ ")"
         song_id := some song.id
         song_title := some song.title }]
    else []

/-- Loop body of `check_artist_separation`: scan `recent_plays`, skip entries
without a resolved song, and stop at the first play of the same artist whose
elapsed time violates the minimum (a same-artist play that is old enough does
not stop the scan). -/
def artistSepScan (c : Clock) (song : Song) (min_separation : Nat) :
    List PlayRec → List RuleViolation
  | [] => []
  | p :: rest =>
    match p.song with
    | none => artistSepScan c song min_separation rest
    | some ps =>
      if ps.artist.toLower == song.artist.toLower then
        let minutes_since := minutesSince c p.played_at
        if minutes_since < (min_separation : ℚ) then
          [{ rule_name := "Artist Separation"
             rule_type := "separation"
             severity := "critical"
             message := "Artist '" ++ song.artist ++ "' played " ++
               toString (pyInt minutes_since) ++ " min ago (min: " ++
               toString min_separation ++ ")"
             song_id := some song.id
             song_title := some song.title }]
        else artistSepScan c song min_separation rest
      else artistSepScan c song min_separation rest

/-- `RulesEngine.check_artist_separation`. -/
def check_artist_separation (r : Rules) (c : Clock) (song : Song)
    (ctx : Context) : List RuleViolation :=
  let settings := r.settings.getD {}
  let min_separation := settings.artist_separation.getD 60
  artistSepScan c song min_separation ctx.recent_plays

/-- `RulesEngine.check_hourly_rules`: only the first rule-set whose `hours`
contain the current hour is consulted (the loop breaks). -/
def check_hourly_rules (r : Rules) (c : Clock) (song : Song)
    (ctx : Context) : List RuleViolation :=
  let current_hour := ctx.hour.getD c.now_hour
  let hourly_rules := r.hourly_rules.getD []
  match hourly_rules.find? (fun rs => rs.hours.contains current_hour) with
  | none => []
  | some rule_set =>
    let allowed_categories := rule_set.rules.map (·.category)
    let catViol :=
      if strTruthy song.category && !(allowed_categories.contains song.category) then
        [{ rule_name := "Hourly Rule: " ++ rule_set.name.getD "Unknown"
           rule_type := "hourly"
           severity := "warning"
           message := "Category '" ++ pyStr song.category ++
             "' not scheduled for hour " ++ toString current_hour
           song_id := some song.id
           song_title := some song.title }]
      else []
    let restViols := rule_set.restrictions.flatMap (fun restriction =>
      if restriction.action == some "avoid" then
        let avoid_moods := restriction.mood
        if (match song.mood with
            | some m => avoid_moods.contains m
            | none => false) then
          [{ rule_name := "Hourly Restriction: " ++ restriction.reason.getD "No reason"
             rule_type := "hourly"
             severity := "error"
             message := "Mood '" ++ pyStr song.mood ++
               "' should be avoided during this daypart"
             song_id := some song.id
             song_title := some song.title }]
        else []
      else [])
    catViol ++ restViols

/-- `RulesEngine.check_tempo_rules`. -/
def check_tempo_rules (r : Rules) (song : Song) (ctx : Context) :
    List RuleViolation :=
  let tempo_rules := r.tempo_rules.getD {}
  let recent_songs := ctx.recent_songs
  if recent_songs.isEmpty then []
  else
    let max_consecutive_slow := tempo_rules.max_consecutive_slow.getD 2
    let max_consecutive_fast := tempo_rules.max_consecutive_fast.getD 3
    let counts := (recent_songs.drop (recent_songs.length - 5)).foldl
      (fun (acc : Nat × Nat) recent =>
        if recent.tempo == some "Slow" then (acc.1 + 1, 0)
        else if recent.tempo == some "Fast" then (0, acc.2 + 1)
        else (0, 0)) (0, 0)
    let consecutive_slow := counts.1
    let consecutive_fast := counts.2
    let slowViol :=
      if song.tempo == some "Slow" && decide (consecutive_slow ≥ max_consecutive_slow) then
        [{ rule_name := "Tempo Flow"
           rule_type := "tempo"
           severity := "warning"
           message := "Too many slow songs in a row (" ++
             toString (consecutive_slow + 1) ++ ")"
           song_id := some song.id
           song_title := some song.title }]
      else []
    let fastViol :=
      if song.tempo == some "Fast" && decide (consecutive_fast ≥ max_consecutive_fast) then
        [{ rule_name := "Tempo Flow"
           rule_type := "tempo"
           severity := "warning"
           message := "Too many fast songs in a row (" ++
             toString (consecutive_fast + 1) ++ ")"
           song_id := some song.id
           song_title := some song.title }]
      else []
    slowViol ++ fastViol

/-- `RulesEngine.check_gender_rules`.  Note `recent_songs[-n:]` is Python
slicing, hence `pyTailSlice`. -/
def check_gender_rules (r : Rules) (song : Song) (ctx : Context) :
    List RuleViolation :=
  let gender_rules := r.gender_rules.getD {}
  let recent_songs := ctx.recent_songs
  let max_consecutive := gender_rules.max_consecutive_same_gender.getD 3
  if recent_songs.isEmpty then []
  else
    let consecutive :=
      ((pyTailSlice max_consecutive recent_songs).reverse.takeWhile
        (fun recent => recent.gender == song.gender)).length
    if consecutive ≥ max_consecutive then
      [{ rule_name := "Gender Balance"
         rule_type := "gender"
         severity := "warning"
         message := "Too many consecutive " ++ pyStr song.gender ++
           " artists (" ++ toString (consecutive + 1) ++ ")"
         song_id := some song.id
         song_title := some song.title }]
    else []

/-- `RulesEngine.check_genre_rules`.  Part (a) scans
`reversed(recent_songs[:separation])` — the *first* `separation` entries of
the context list, exactly as the source does. -/
def check_genre_rules (r : Rules) (song : Song) (ctx : Context) :
    List RuleViolation :=
  let genre_rules := r.genre_rules.getD {}
  let recent_songs := ctx.recent_songs
  let hourly_plays := ctx.hourly_genre_counts
  let separation := genre_rules.same_genre_separation.getD 2
  let sepViol :=
    match ((recent_songs.take separation).reverse.enum.find?
        (fun ir => ir.2.genre == song.genre)) with
    | none => []
    | some (i, _) =>
      [{ rule_name := "Genre Separation"
         rule_type := "genre"
         severity := "warning"
         message := "Same genre '" ++ pyStr song.genre ++ "' played " ++
           toString (i + 1) ++ " songs ago (min separation: " ++
           toString separation ++ ")"
         song_id := some song.id
         song_title := some song.title }]
  let limitViols := genre_rules.hourly_limits.flatMap (fun limit =>
    if song.genre == some limit.genre then
      let max_per_hour := limit.max_per_hour.getD 999
      let current_count := (alookup limit.genre hourly_plays).getD 0
      if current_count ≥ max_per_hour then
        [{ rule_name := "Genre Hourly Limit"
           rule_type := "genre"
           severity := "error"
           message := "Max " ++ pyStr song.genre ++
             " songs reached for this hour (" ++ toString max_per_hour ++ ")"
           song_id := some song.id
           song_title := some song.title }]
      else []
    else [])
  sepViol ++ limitViols

/-- `RulesEngine.check_dayparting_rules`. -/
def check_dayparting_rules (r : Rules) (c : Clock) (song : Song)
    (ctx : Context) : List RuleViolation :=
  let special_rules := r.special_rules.getD {}
  let dayparting := special_rules.dayparting
  let current_hour := ctx.hour.getD c.now_hour
  let current_day := ctx.day_of_week.getD c.now_day
  dayparting.flatMap (fun rule =>
    let hours := rule.hours.getD (List.range 24)
    let days := rule.days.getD (List.range 7)
    if hours.contains current_hour && days.contains current_day then
      match rule.condition_explicit with
      | none => []
      | some allowed =>
        if song.explicit && !allowed then
          [{ rule_name := "Dayparting: " ++ rule.name.getD "Unknown"
             rule_type := "dayparting"
             severity := "critical"
             message := "Explicit content not allowed during this daypart"
             song_id := some song.id
             song_title := some song.title }]
        else []
    else [])

/-- `RulesEngine.can_play_song`: run every check, concatenate the
violations, and allow the play iff none of them is `critical`. -/
def can_play_song (r : Rules) (c : Clock) (song : Song) (ctx : Context) :
    Bool × List RuleViolation :=
  let violations :=
    check_song_separation r c song ctx ++
    check_artist_separation r c song ctx ++
    check_hourly_rules r c song ctx ++
    check_tempo_rules r song ctx ++
    check_gender_rules r song ctx ++
    check_genre_rules r song ctx ++
    check_dayparting_rules r c song ctx
  (!(violations.any (fun v => v.severity == "critical")), violations)

/-! ## Selection (`RulesEngine.get_category_for_hour` / `select_next_song`,
`DatabaseManager.get_eligible_songs`) -/

/-- `RulesEngine.get_category_for_hour`: percentages of the first rule-set
matching the hour (a Python dict built by assignment, hence `aupsert`), or
the built-in default distribution. -/
def get_category_for_hour (r : Rules) (hour : Nat) :
    List (Option String × Nat) :=
  let hourly_rules := r.hourly_rules.getD []
  match hourly_rules.find? (fun rs => rs.hours.contains hour) with
  | some rule_set =>
    rule_set.rules.foldl
      (fun percentages rule => aupsert rule.category (rule.percentage.getD 0) percentages)
      []
  | none =>
    [(some "Current", 30), (some "Recurrent", 25), (some "Power Gold", 25),
     (some "Gold", 15), (some "Deep Cut", 5)]

/-- `DatabaseManager.get_eligible_songs` over an in-memory table of Song
rows: active, rested (`last_played` null or strictly before the cutoff),
optionally category-filtered (skipped for a falsy category), and excluding
the given artists (exact match, as in the SQL `IN`).  Row order of the
backing table is preserved (the query has no `ORDER BY`). -/
def get_eligible_songs (dbSongs : List Song) (c : Clock)
    (category : Option String) (min_rest_minutes : Nat)
    (excluded_artists : List String) : List Song :=
  let cutoff : Int := c.now - (min_rest_minutes : Int) * 60
  dbSongs.filter (fun s =>
    s.is_active &&
    (match s.last_played with
     | none => true
     | some t => decide (t < cutoff)) &&
    (if strTruthy category then s.category == category else true) &&
    !(excluded_artists.contains s.artist))

/-- The `for category in weighted_categories` / `for song in songs` loops of
`select_next_song`: for each category of the shuffled bag, the first
eligible song the checker approves is returned. -/
def pickFromBag (r : Rules) (dbSongs : List Song) (c : Clock) (ctx : Context)
    (recent_artists : List String) : List (Option String) → Option Song
  | [] => none
  | category :: rest =>
    let songs := get_eligible_songs dbSongs c category 180 (recent_artists.take 5)
    match songs.find? (fun song => (can_play_song r c song ctx).1) with
    | some song => some song
    | none => pickFromBag r dbSongs c ctx recent_artists rest

/-- `RulesEngine.select_next_song`.  `random.shuffle` is modelled by an
explicit `shuffle` oracle applied to the integer-weighted bag; every theorem
below holds for an arbitrary oracle. -/
def select_next_song (r : Rules) (dbSongs : List Song) (c : Clock)
    (shuffle : List (Option String) → List (Option String))
    (ctx : Context) : Option Song :=
  let current_hour := ctx.hour.getD c.now_hour
  let category_weights := get_category_for_hour r current_hour
  let recent_artists := ctx.recent_plays.filterMap (fun p => p.song.map (·.artist))
  let weighted_categories := category_weights.flatMap
    (fun cw => List.replicate cw.2 cw.1)
  pickFromBag r dbSongs c ctx recent_artists (shuffle weighted_categories)

/-! ## Configuration validation (`RulesEngine.validate_rules`) -/

/-- Sum of a rule-set's percentages (`sum(r.get('percentage', 0) ...)`). -/
def rulesetPctSum (rs : HourlyRuleSet) : Nat :=
  (rs.rules.map (fun r => r.percentage.getD 0)).sum

/-- The issue reported for a rule-set whose percentages do not sum to 100. -/
def pctIssueMsg (rs : HourlyRuleSet) : String :=
  "Percentages for '" ++ pyStr rs.name ++ "' sum to " ++
    toString (rulesetPctSum rs) ++ ", not 100"

/-- `RulesEngine.validate_rules`. -/
def validate_rules (r : Rules) : List String :=
  if r.isEmptyDoc then ["No rules loaded"]
  else
    let settingsErrs :=
      if r.settings.isNone then ["Missing 'settings' section"] else []
    match r.hourly_rules with
    | none => settingsErrs ++ ["Missing 'hourly_rules' section"]
    | some hourly_rules =>
      let missing := (List.range 24).filter
        (fun h => !(hourly_rules.any (fun rs => rs.hours.contains h)))
      let coverageErrs :=
        if !missing.isEmpty then
          ["Hours not covered by rules: " ++ toString missing]
        else []
      let pctErrs := hourly_rules.filterMap (fun rs =>
        if rulesetPctSum rs ≠ 100 then some (pctIssueMsg rs) else none)
      settingsErrs ++ coverageErrs ++ pctErrs

/-! ## Auditor (`RotationAuditor`) -/

/-- Stable insertion of a play into a list sorted by `played_at`
(equal keys keep their existing order, new elements go last). -/
def insertByTime (p : PlayRec) : List PlayRec → List PlayRec
  | [] => [p]
  | q :: rest =>
    if q.played_at ≤ p.played_at then q :: insertByTime p rest
    else p :: q :: rest

/-- Python's stable `sorted(plays, key=lambda x: x.played_at)`. -/
def sortPlays (plays : List PlayRec) : List PlayRec :=
  plays.foldl (fun acc p => insertByTime p acc) []

/-- The summary-statistics block (`_calculate_summary`'s return dict).
Percentage/average fields are exact rationals after `round1`. -/
structure Summary where
  total_plays : Nat
  unique_songs_played : Nat
  unique_artists_played : Nat
  total_songs_in_library : Nat
  library_coverage_percent : ℚ
  total_air_time_hours : ℚ
  average_plays_per_song : ℚ
  average_plays_per_day : ℚ
  completed_plays : Nat
  skipped_plays : Nat
deriving DecidableEq, Repr

/-- `RotationAuditor._calculate_summary`: the loop collects, over plays with
a resolved song, the set of song ids, the set of artist names, and the total
duration; the returned block is computed from those and the play list. -/
def calculate_summary (plays : List PlayRec) (all_songs : List Song) : Summary :=
  let withSong := plays.filterMap (fun p => p.song.map (fun s => (p.song_id, s)))
  let unique_songs := (withSong.map (·.1)).dedup
  let unique_artists := (withSong.map (fun x => x.2.artist)).dedup
  let total_duration := (withSong.map (fun x => x.2.duration_seconds.getD 0)).sum
  { total_plays := plays.length
    unique_songs_played := unique_songs.length
    unique_artists_played := unique_artists.length
    total_songs_in_library := all_songs.length
    library_coverage_percent :=
      if all_songs.isEmpty then 0
      else round1 ((unique_songs.length : ℚ) / (all_songs.length : ℚ) * 100)
    total_air_time_hours := round1 ((total_duration : ℚ) / 3600)
    average_plays_per_song :=
      if unique_songs.isEmpty then 0
      else round1 ((plays.length : ℚ) / (unique_songs.length : ℚ))
    average_plays_per_day := round1 ((plays.length : ℚ) / 7)
    completed_plays := (plays.filter (·.completed)).length
    skipped_plays := (plays.filter (·.skipped)).length }

/-- One entry of the report's `rule_violations` list.  The `timestamp` holds
the play's `played_at` instant (the source stores its ISO rendering). -/
structure ViolationEntry where
  timestamp : Int
  song : String
  artist : String
  rule_name : String
  rule_type : String
  severity : String
  message : String
deriving DecidableEq, Repr

/-- Loop body of `_find_violations` for one historical play: skip plays with
no resolved song, rebuild the checker context from the preceding window, and
keep only `error`/`critical` violations. -/
def auditEntriesFor (r : Rules) (c : Clock) (prev_plays : List PlayRec)
    (play : PlayRec) : List ViolationEntry :=
  match play.song with
  | none => []
  | some s =>
    let ctx : Context :=
      { recent_plays := prev_plays
        recent_songs := prev_plays.filterMap (·.song)
        hour := play.hour }
    ((can_play_song r c s ctx).2.filter
        (fun v => v.severity == "error" || v.severity == "critical")).map
      (fun v =>
        { timestamp := play.played_at
          song := s.title
          artist := s.artist
          rule_name := v.rule_name
          rule_type := v.rule_type
          severity := v.severity
          message := v.message })

/-- `RotationAuditor._find_violations`: the plays are sorted chronologically;
`for i, play in enumerate(sorted_plays[1:], 1)` walks indices `1..n-1` (the
first play is never evaluated); the context window is
`sorted_plays[max(0, i-10):i]`; the result is capped at 100 entries. -/
def find_violations (r : Rules) (c : Clock) (plays : List PlayRec) :
    List ViolationEntry :=
  let sorted_plays := sortPlays plays
  ((List.enumFrom 1 (sorted_plays.drop 1)).flatMap (fun ip =>
    auditEntriesFor r c ((sorted_plays.take ip.1).drop (ip.1 - 10)) ip.2)).take 100

/-- Modelled from the amended spec words for the violation pass: walk the
chronologically sorted plays carrying the already-processed prefix; evaluate
every play except the chronologically first against the last up-to-10
processed plays; cap at 100. -/
def violationsFrom (r : Rules) (c : Clock) :
    List PlayRec → List PlayRec → List ViolationEntry
  | _, [] => []
  | prev, p :: rest =>
    (if prev.isEmpty then []
     else auditEntriesFor r c (prev.drop (prev.length - 10)) p) ++
    violationsFrom r c (prev ++ [p]) rest

/-- Spec-side description of `_find_violations` (see `violationsFrom`). -/
def find_violations_spec (r : Rules) (c : Clock) (plays : List PlayRec) :
    List ViolationEntry :=
  (violationsFrom r c [] (sortPlays plays)).take 100

/-- One entry of `category_breakdown` (plays, share of total, unique songs). -/
structure CategoryStats where
  plays : Nat
  percentage : ℚ
  unique_songs : Nat
deriving DecidableEq, Repr

/-- One entry of `gender_breakdown`. -/
structure GenderStats where
  plays : Nat
  percentage : ℚ
deriving DecidableEq, Repr

/-- One entry of the report's `underplayed_songs` list. -/
structure UnderplayedEntry where
  title : String
  artist : String
  category : Option String
  actual_plays : Nat
  expected_plays : Nat
  song_id : Nat
deriving DecidableEq, Repr

/-- The slice of the weekly report that `_generate_recommendations` reads. -/
structure Report where
  summary : Summary
  category_breakdown : List (String × CategoryStats)
  gender_breakdown : List (String × GenderStats)
  underplayed_songs : List UnderplayedEntry
  rule_violations : List ViolationEntry
deriving Repr

/-- `RotationAuditor._generate_recommendations`.  The numeric text inside the
recommendation strings renders rationals with `toString`; Python's float
formatting is abstracted to that exact-rational rendering, and the float
literal `0.05` is taken at its intended value `1/20`. -/
def generate_recommendations (report : Report) : List String :=
  let summary := report.summary
  let coverage := summary.library_coverage_percent
  let coverageRecs :=
    if coverage < 50 then
      ["Library coverage is low (" ++ toString coverage ++
        "%). Consider increasing rotation variety."]
    else []
  let underplayedRecs :=
    if report.underplayed_songs.length > 10 then
      [toString report.underplayed_songs.length ++
        " songs are underplayed. Review rotation weights or song availability."]
    else []
  let currentRecs :=
    match alookup "Current" report.category_breakdown with
    | none => []
    | some stats =>
      let current_pct := stats.percentage
      if current_pct < 25 then
        ["Current music is only " ++ toString current_pct ++
          "% of rotation. Consider increasing current music plays."]
      else if current_pct > 50 then
        ["Current music is " ++ toString current_pct ++
          "% of rotation. Consider adding more variety from other categories."]
      else []
  let genderRecs := report.gender_breakdown.flatMap (fun gd =>
    if gd.2.percentage > 60 then
      [gd.1 ++ " artists are " ++ toString gd.2.percentage ++
        "% of rotation. Consider improving gender balance."]
    else [])
  let violationRecs :=
    if report.rule_violations.length > 20 then
      ["Found " ++ toString report.rule_violations.length ++
        " rule violations this week. Review scheduling rules and enforcement."]
    else []
  let skipRecs :=
    if (summary.skipped_plays : ℚ) > (summary.total_plays : ℚ) * (1/20) then
      [toString ((summary.skipped_plays : ℚ) / (summary.total_plays : ℚ) * 100) ++
        "% of scheduled plays were skipped. Investigate skip reasons."]
    else []
  coverageRecs ++ underplayedRecs ++ currentRecs ++ genderRecs ++
    violationRecs ++ skipRecs

/-! ## Concrete fixtures used by witnesses and counterexamples -/

/-- A fixed wall-clock snapshot. -/
def fxClock : Clock := { now := 100000, now_hour := 12, now_day := 2 }

/-- An empty rules document (every `.get` falls back to its default). -/
def fxCfgEmpty : Rules := {}

/-- A song last played 600 seconds (10 minutes) before `fxClock.now`. -/
def fxSongRecent : Song :=
  { id := 1, title := "A", artist := "Art", category := some "Current",
    genre := some "Pop", last_played := some 99400 }

/-- A never-played active song in the Current category. -/
def fxSongFresh : Song :=
  { id := 5, title := "C", artist := "CA", category := some "Current" }

/-- A one-song catalog table. -/
def fxDb : List Song := [fxSongFresh]

/-- A song with a per-song `min_rest_minutes` override of 500, last played
200 minutes before `fxClock.now`. -/
def fxSongOverride : Song :=
  { id := 7, title := "O", artist := "OA", min_rest_minutes := some 500,
    last_played := some (100000 - 200 * 60) }

/-- An hourly rule-set covering every hour with percentages 60 + 40 = 100. -/
def goodRS : HourlyRuleSet :=
  { name := some "All Day", hours := List.range 24,
    rules := [ { category := some "Current", percentage := some 60 },
               { category := some "Gold", percentage := some 40 } ] }

/-- A fully covering hourly-rules list. -/
def goodHrs : List HourlyRuleSet := [goodRS]

/-- A complete, valid configuration (settings and hourly rules present). -/
def fxCfgValid : Rules := { settings := some {}, hourly_rules := some goodHrs }

/-- Replacement percentages that sum to 50 instead of 100. -/
def badPcts : List HourlyCatRule :=
  [ { category := some "Current", percentage := some 50 } ]

/-- Configuration with a same-genre separation distance of 1. -/
def fxCfgGenre : Rules :=
  { genre_rules := some { same_genre_separation := some 1 } }

/-- A Rock song (the older context entry in the C4 scenario). -/
def fxRock : Song := { id := 2, title := "R", artist := "X", genre := some "Rock" }

/-- A Pop song (the most recent context entry in the C4 scenario). -/
def fxPop : Song := { id := 3, title := "P", artist := "Y", genre := some "Pop" }

/-- A Pop candidate song. -/
def fxCand : Song := { id := 4, title := "Q", artist := "Z", genre := some "Pop" }

/-- A dayparting rule banning explicit content during hour 10 on every day. -/
def fxCfgDaypart : Rules :=
  { special_rules := some { dayparting :=
      [ { name := some "Safe", hours := some [10], condition_explicit := some false } ] } }

/-- An explicit-flagged song. -/
def fxExplicit : Song := { id := 9, title := "E", artist := "EZ", explicit := true }

/-- A single historical play of `fxExplicit` during hour 10. -/
def fxPlay1 : PlayRec :=
  { song_id := 9, song := some fxExplicit, played_at := 1000, hour := some 10 }

/-- A healthy summary block: full coverage, no skips. -/
def fxSummaryOk : Summary :=
  { total_plays := 100, unique_songs_played := 10, unique_artists_played := 10,
    total_songs_in_library := 10, library_coverage_percent := 100,
    total_air_time_hours := 10, average_plays_per_song := 10,
    average_plays_per_day := 10, completed_plays := 100, skipped_plays := 0 }

/-- A report of a week in which no Current-category song was played at all:
the category breakdown has no "Current" key, and no other threshold is
breached. -/
def fxReportNoCurrent : Report :=
  { summary := fxSummaryOk,
    category_breakdown := [("Gold", { plays := 100, percentage := 100, unique_songs := 5 })],
    gender_breakdown := [], underplayed_songs := [], rule_violations := [] }

/-! ## Shared lemmas -/

/-- Every element kept by `auditEntriesFor` has severity error or critical. -/
theorem auditEntriesFor_severity (r : Rules) (c : Clock)
    (prev : List PlayRec) (play : PlayRec) :
    ∀ e ∈ auditEntriesFor r c prev play,
      e.severity = "error" ∨ e.severity = "critical" := by
  intro e he
  unfold auditEntriesFor at he
  cases hs : play.song with
  | none => rw [hs] at he; simp at he
  | some s =>
    rw [hs] at he
    simp only [List.mem_map] at he
    obtain ⟨v, hv, rfl⟩ := he
    simp only [List.mem_filter, Bool.or_eq_true, beq_iff_eq] at hv
    exact hv.2

/-- `pickFromBag` only ever returns a song drawn from `get_eligible_songs`,
hence an active one. -/
theorem pickFromBag_active (r : Rules) (dbSongs : List Song) (c : Clock)
    (ctx : Context) (ras : List String) (bag : List (Option String)) (s : Song)
    (h : pickFromBag r dbSongs c ctx ras bag = some s) : s.is_active = true := by
  induction bag with
  | nil => simp [pickFromBag] at h
  | cons cat rest ih =>
    rw [pickFromBag] at h
    cases hf : (get_eligible_songs dbSongs c cat 180 (ras.take 5)).find?
        (fun song => (can_play_song r c song ctx).1) with
    | none => rw [hf] at h; exact ih h
    | some s' =>
      rw [hf] at h
      cases h
      have hmem := List.mem_of_find?_eq_some hf
      simp only [get_eligible_songs, List.mem_filter, Bool.and_eq_true] at hmem
      exact hmem.2.1.1.1

/-- `pickFromBag` fails when no category of the bag yields an approved song. -/
theorem pickFromBag_none (r : Rules) (dbSongs : List Song) (c : Clock)
    (ctx : Context) (ras : List String) (bag : List (Option String))
    (h : ∀ cat ∈ bag,
      (get_eligible_songs dbSongs c cat 180 (ras.take 5)).find?
        (fun song => (can_play_song r c song ctx).1) = none) :
    pickFromBag r dbSongs c ctx ras bag = none := by
  induction bag with
  | nil => rfl
  | cons cat rest ih =>
    rw [pickFromBag, h cat (List.mem_cons_self cat rest)]
    exact ih fun c' hc' => h c' (List.mem_cons_of_mem cat hc')

/-- Length of a conditional singleton. -/
theorem length_ite_single {β : Type _} (c : Prop) [Decidable c] (x : β) :
    (if c then [x] else []).length = if c then 1 else 0 := by
  split <;> rfl

/-- The gender loop of `_generate_recommendations` appends exactly one
string per gender whose share exceeds 60. -/
theorem length_genderRecs (l : List (String × GenderStats)) :
    (l.flatMap (fun gd =>
      if gd.2.percentage > 60 then
        [gd.1 ++ " artists are " ++ toString gd.2.percentage ++
          "% of rotation. Consider improving gender balance."]
      else [])).length =
    (l.filter (fun gd => decide (gd.2.percentage > 60))).length := by
  induction l with
  | nil => rfl
  | cons x xs ih =>
    by_cases h : x.2.percentage > 60 <;>
      simp [List.flatMap_cons, List.filter_cons, h, ih]

/-- Replacing the element at index `i` of a list all of whose elements map to
`none` with one mapping to `some m` makes `filterMap` return exactly `[m]`. -/
theorem filterMap_set_single {α β : Type _} (f : α → Option β) (l : List α)
    (i : Nat) (b : α) (m : β) (hi : i < l.length)
    (hall : ∀ a ∈ l, f a = none) (hb : f b = some m) :
    (l.set i b).filterMap f = [m] := by
  induction l generalizing i with
  | nil => simp at hi
  | cons x xs ih =>
    cases i with
    | zero =>
      rw [List.set_cons_zero, List.filterMap_cons_some hb,
        List.filterMap_eq_nil_iff.mpr (fun a ha => hall a (List.mem_cons_of_mem x ha))]
    | succ n =>
      rw [List.set_cons_succ, List.filterMap_cons_none (hall x (List.mem_cons_self x xs))]
      exact ih n (by simpa using hi) (fun a ha => hall a (List.mem_cons_of_mem x ha))

/-- In an otherwise valid configuration, replacing the rule-set at index `i`
by one with the same hours but percentages not summing to 100 makes
`validate_rules` report exactly that rule-set's percentage issue. -/
theorem validate_rules_single_bad (r : Rules) (hrs : List HourlyRuleSet)
    (i : Nat) (hi : i < hrs.length) (rs' : HourlyRuleSet)
    (hset : r.settings.isSome = true)
    (hcov : ∀ h ∈ List.range 24, ∃ rs ∈ hrs, h ∈ rs.hours)
    (hsum : ∀ rs ∈ hrs, rulesetPctSum rs = 100)
    (hhours : rs'.hours = hrs[i].hours)
    (hbad : rulesetPctSum rs' ≠ 100) :
    validate_rules { r with hourly_rules := some (hrs.set i rs') } = [pctIssueMsg rs'] := by
  obtain ⟨st, hst⟩ := Option.isSome_iff_exists.mp hset
  have hiset : i < (hrs.set i rs').length := by simpa using hi
  have hcov2 : ∀ h ∈ List.range 24, ∃ rs ∈ hrs.set i rs', h ∈ rs.hours := by
    intro a ha
    obtain ⟨rs0, hmem, hh⟩ := hcov a ha
    obtain ⟨j, hj, hje⟩ := List.mem_iff_getElem.mp hmem
    by_cases hij : j = i
    · have hm : rs' ∈ hrs.set i rs' := by
        rw [List.mem_iff_getElem]
        exact ⟨i, hiset, List.getElem_set_self hiset⟩
      refine ⟨rs', hm, ?_⟩
      rw [hhours]
      have heq : (hrs[i] : HourlyRuleSet) = rs0 := by subst hij; exact hje
      rw [heq]
      exact hh
    · have hj' : j < (hrs.set i rs').length := by simpa using hj
      refine ⟨rs0, ?_, hh⟩
      have hg := List.getElem_set_ne (l := hrs) (a := rs') (fun h => hij h.symm) hj'
      rw [← hje, ← hg]
      exact List.getElem_mem hj'
  have hpct2 : (hrs.set i rs').filterMap (fun rs =>
      if rulesetPctSum rs ≠ 100 then some (pctIssueMsg rs) else none) = [pctIssueMsg rs'] := by
    refine filterMap_set_single _ hrs i _ _ hi ?_ ?_
    · intro rs hmem
      rw [if_neg]
      simp [hsum rs hmem]
    · rw [if_pos hbad]
  simp only [validate_rules, Rules.isEmptyDoc, hst, hpct2]
  simp
  exact fun x hx => hcov2 x (List.mem_range.mpr hx)

/-- The indexed sweep of `_find_violations` over the tail of the sorted play
list agrees with the prefix-carrying recursion `violationsFrom`: the take
slice `sorted[max(0, i-10):i]` is exactly the last up-to-10 already
processed plays. -/
theorem sweep_aux (r : Rules) (c : Clock) :
    ∀ (rest prev S : List PlayRec), S = prev ++ rest → prev ≠ [] →
      (List.enumFrom prev.length rest).flatMap (fun ip =>
        auditEntriesFor r c ((S.take ip.1).drop (ip.1 - 10)) ip.2) =
      violationsFrom r c prev rest := by
  intro rest
  induction rest with
  | nil => intro prev S hS hne; simp [violationsFrom]
  | cons q rest' ih =>
    intro prev S hS hne
    rw [List.enumFrom_cons, List.flatMap_cons]
    have hprev : S.take prev.length = prev := by
      rw [hS]; exact List.take_left prev (q :: rest')
    have h1 : auditEntriesFor r c ((S.take prev.length).drop (prev.length - 10)) q =
        auditEntriesFor r c (prev.drop (prev.length - 10)) q := by rw [hprev]
    have hS' : S = (prev ++ [q]) ++ rest' := by
      rw [hS, List.append_cons]
    have h2 := ih (prev ++ [q]) S hS' (by simp)
    have hlen : (prev ++ [q]).length = prev.length + 1 := by simp
    rw [hlen] at h2
    rw [h1, h2]
    rw [violationsFrom]
    rw [List.isEmpty_eq_false.mpr hne]
    simp

/-- `_find_violations` coincides with its spec-side description. -/
theorem find_violations_eq_spec (r : Rules) (c : Clock) (plays : List PlayRec) :
    find_violations r c plays = find_violations_spec r c plays := by
  simp only [find_violations, find_violations_spec]
  congr 1
  cases hS : sortPlays plays with
  | nil => simp [violationsFrom]
  | cons p rest =>
    have hdrop : (p :: rest : List PlayRec).drop 1 = rest := rfl
    rw [hdrop]
    have h := sweep_aux r c rest [p] (p :: rest) rfl (by simp)
    have hrhs : violationsFrom r c [] (p :: rest) = violationsFrom r c [p] rest := by
      rw [violationsFrom]
      simp
    rw [hrhs]
    simpa using h

/-! ## Claims -/

/-- C1: `can_play_song` evaluates all seven checks (song separation, artist
separation, hourly, tempo, gender, genre, dayparting) without
short-circuiting, returns the concatenation of every emitted violation
regardless of severity, and returns `may_play = true` iff no emitted
violation has severity `critical`. -/
theorem can_play_song_runs_all_checks (r : Rules) (c : Clock) (song : Song)
    (ctx : Context) :
    (can_play_song r c song ctx).2 =
      check_song_separation r c song ctx ++
      check_artist_separation r c song ctx ++
      check_hourly_rules r c song ctx ++
      check_tempo_rules r song ctx ++
      check_gender_rules r song ctx ++
      check_genre_rules r song ctx ++
      check_dayparting_rules r c song ctx ∧
    ((can_play_song r c song ctx).1 = true ↔
      ∀ v ∈ (can_play_song r c song ctx).2, v.severity ≠ "critical") := by
  refine ⟨rfl, ?_⟩
  rw [show (can_play_song r c song ctx).1
      = !((can_play_song r c song ctx).2.any (fun v => v.severity == "critical")) from rfl]
  rw [Bool.not_eq_true', List.any_eq_false]
  simp

/-- C2 counterexample: the claim promises the minimum rest is the
song-specific `min_rest_minutes` override when present.  `fxSongOverride`
carries an override of 500 minutes and was played 200 minutes ago, so under
the claim the song-separation check must emit a critical violation; the code
compares only against the global setting (default 180) and emits nothing. -/
theorem check_song_separation_override_ignored :
    fxSongOverride.min_rest_minutes = some 500 ∧
    minutesSince fxClock 88000 = 200 ∧ (200 : ℚ) < 500 ∧
    check_song_separation fxCfgEmpty fxClock fxSongOverride {} = [] := by
  refine ⟨rfl, by norm_num [minutesSince, fxClock], by norm_num, ?_⟩
  unfold check_song_separation
  show (if minutesSince fxClock 88000 < ((180 : Nat) : ℚ) then _ else []) = []
  rw [if_neg]
  norm_num [minutesSince, fxClock]

/-- C2 (amended): for every song whose `last_played` is non-null and less
than the *global* `song_separation` setting (default 180; the per-song
`min_rest_minutes` override is not consulted) before the evaluation time,
the song-separation check emits exactly one violation of severity
`critical` whose message contains the integer elapsed minutes and the
configured minimum, and `may_play` is false for that song. -/
theorem song_separation_blocks_recent_play (r : Rules) (c : Clock)
    (song : Song) (ctx : Context) (t : Int)
    (hlp : song.last_played = some t)
    (hfresh : minutesSince c t < (((r.settings.getD {}).song_separation.getD 180 : Nat) : ℚ)) :
    check_song_separation r c song ctx =
      [{ rule_name := "Song Separation"
         rule_type := "separation"
         severity := "critical"
         message := "Song played " ++ toString (pyInt (minutesSince c t)) ++
           " minutes ago (min: " ++
           toString ((r.settings.getD {}).song_separation.getD 180) ++ ")"
         song_id := some song.id
         song_title := some song.title }] ∧
    (can_play_song r c song ctx).1 = false := by
  have hsep : check_song_separation r c song ctx =
      [{ rule_name := "Song Separation"
         rule_type := "separation"
         severity := "critical"
         message := "Song played " ++ toString (pyInt (minutesSince c t)) ++
           " minutes ago (min: " ++
           toString ((r.settings.getD {}).song_separation.getD 180) ++ ")"
         song_id := some song.id
         song_title := some song.title }] := by
    unfold check_song_separation
    rw [hlp]
    exact if_pos hfresh
  refine ⟨hsep, ?_⟩
  rw [show (can_play_song r c song ctx).1
      = !((check_song_separation r c song ctx ++
           check_artist_separation r c song ctx ++
           check_hourly_rules r c song ctx ++
           check_tempo_rules r song ctx ++
           check_gender_rules r song ctx ++
           check_genre_rules r song ctx ++
           check_dayparting_rules r c song ctx).any
            (fun v => v.severity == "critical")) from rfl]
  simp [hsep, List.any_append]

/-- C2 witness: `fxSongRecent` was played 10 minutes ago under the default
180-minute separation; the check emits the critical violation and the
checker blocks the play. -/
theorem song_separation_blocks_recent_play_witness :
    check_song_separation fxCfgEmpty fxClock fxSongRecent {} =
      [{ rule_name := "Song Separation"
         rule_type := "separation"
         severity := "critical"
         message := "Song played " ++ toString (pyInt (minutesSince fxClock 99400)) ++
           " minutes ago (min: " ++
           toString ((fxCfgEmpty.settings.getD {}).song_separation.getD 180) ++ ")"
         song_id := some fxSongRecent.id
         song_title := some fxSongRecent.title }] ∧
    (can_play_song fxCfgEmpty fxClock fxSongRecent {}).1 = false :=
  song_separation_blocks_recent_play fxCfgEmpty fxClock fxSongRecent {} 99400
    rfl (by norm_num [minutesSince, fxClock, fxCfgEmpty])

/-- C3 counterexample: `goodHrs` covers hours 0-23 and its percentages sum
to exactly 100, yet a configuration holding only that section (no
`settings` section) still yields one issue — the claim's premise does not
force an empty issue list. -/
theorem validate_rules_missing_settings :
    (∀ h ∈ List.range 24, ∃ rs ∈ goodHrs, h ∈ rs.hours) ∧
    (∀ rs ∈ goodHrs, rulesetPctSum rs = 100) ∧
    validate_rules { hourly_rules := some goodHrs } = ["Missing 'settings' section"] := by
  refine ⟨by decide, by decide, by decide⟩

/-- C3 (amended): for every rule configuration *containing the `settings`
and `hourly_rules` sections* in which hours 0-23 are fully covered and every
hourly rule-set's percentages sum to exactly 100, `validate_rules` returns
an empty issue list; and changing any single rule-set's percentages so they
do not sum to 100 makes `validate_rules` return exactly one issue naming
that rule-set. -/
theorem validate_rules_complete (r : Rules) (hrs : List HourlyRuleSet)
    (hset : r.settings.isSome = true) (hhr : r.hourly_rules = some hrs)
    (hcov : ∀ h ∈ List.range 24, ∃ rs ∈ hrs, h ∈ rs.hours)
    (hsum : ∀ rs ∈ hrs, rulesetPctSum rs = 100) :
    validate_rules r = [] ∧
    ∀ (i : Nat) (hi : i < hrs.length) (newRules : List HourlyCatRule),
      rulesetPctSum { hrs[i] with rules := newRules } ≠ 100 →
      validate_rules { r with hourly_rules := some (hrs.set i { hrs[i] with rules := newRules }) } =
        [pctIssueMsg { hrs[i] with rules := newRules }] := by
  obtain ⟨st, hst⟩ := Option.isSome_iff_exists.mp hset
  constructor
  · have hempty : r.isEmptyDoc = false := by simp [Rules.isEmptyDoc, hst]
    have hnone : r.settings.isNone = false := by simp [hst]
    simp only [validate_rules, hempty, hhr, hnone]
    simp
    exact ⟨fun x hx => hcov x (List.mem_range.mpr hx), hsum⟩
  · intro i hi newRules hbad
    exact validate_rules_single_bad r hrs i hi _ hset hcov hsum rfl hbad

/-- C3 witness: the concrete valid configuration `fxCfgValid` validates with
no issues, and breaking its single rule-set's percentages (60 + 40 → 50)
yields exactly the one issue naming "All Day". -/
theorem validate_rules_complete_witness :
    validate_rules fxCfgValid = [] ∧
    validate_rules { fxCfgValid with hourly_rules := some (goodHrs.set 0 { goodRS with rules := badPcts }) } =
      [pctIssueMsg { goodRS with rules := badPcts }] ∧
    pctIssueMsg { goodRS with rules := badPcts } =
      "Percentages for 'All Day' sum to 50, not 100" := by
  have h := validate_rules_complete fxCfgValid goodHrs rfl rfl (by decide) (by decide)
  exact ⟨h.1, h.2 0 (by decide) badPcts (by decide), by decide⟩

/-- C4: the claim (and the spec) say the same-genre separation scans the
*most recent* context songs; the code scans `recent_songs[:separation]`,
the *oldest* ones.  With separation 1 and chronological context
`[Rock, Pop]` (Pop most recent), a Pop candidate is not flagged even though
the most recent song shares its genre; flipping the context order makes the
very same check fire.  The emitted message "played i+1 songs ago" is only
truthful for the most-recent reading, so the slice is a slip. -/
theorem check_genre_rules_scans_oldest :
    check_genre_rules fxCfgGenre fxCand { recent_songs := [fxRock, fxPop] } = [] ∧
    (pyTailSlice 1 [fxRock, fxPop]).any (fun s => s.genre == fxCand.genre) = true ∧
    check_genre_rules fxCfgGenre fxCand { recent_songs := [fxPop, fxRock] } =
      [{ rule_name := "Genre Separation"
         rule_type := "genre"
         severity := "warning"
         message := "Same genre 'Pop' played 1 songs ago (min separation: 1)"
         song_id := some fxCand.id
         song_title := some fxCand.title }] := by
  refine ⟨?_, ?_, ?_⟩ <;> decide

/-- C5 counterexample: the claim promises the checker is re-run against
*each* historical play, but `_find_violations` iterates `sorted_plays[1:]`
and never evaluates the chronologically first play.  With the single play
`fxPlay1` (an explicit song during a restricted daypart), evaluating it with
its (empty) preceding window yields a critical entry, yet the pass returns
nothing. -/
theorem find_violations_skips_first_play :
    auditEntriesFor fxCfgDaypart fxClock [] fxPlay1 =
      [{ timestamp := 1000, song := "E", artist := "EZ", rule_name := "Dayparting: Safe",
         rule_type := "dayparting", severity := "critical",
         message := "Explicit content not allowed during this daypart" }] ∧
    find_violations fxCfgDaypart fxClock [fxPlay1] = [] := by
  exact ⟨by decide, by decide⟩

/-- C5 (amended): the violation pass evaluates the Constraint Checker
against each historical play *except the chronologically first* in order of
`played_at` (plays with no resolved song are skipped), using as context
exactly the up-to-10 plays that precede it, keeps only violations of
severity `error` or `critical`, and returns at most 100 entries. -/
theorem find_violations_characterization (r : Rules) (c : Clock)
    (plays : List PlayRec) :
    find_violations r c plays = find_violations_spec r c plays ∧
    (find_violations r c plays).length ≤ 100 ∧
    ∀ e ∈ find_violations r c plays,
      e.severity = "error" ∨ e.severity = "critical" := by
  refine ⟨find_violations_eq_spec r c plays, ?_, ?_⟩
  · simp only [find_violations]
    rw [List.length_take]
    exact min_le_left _ _
  · intro e he
    simp only [find_violations] at he
    have he' := List.mem_of_mem_take he
    obtain ⟨ip, _, hin⟩ := List.mem_flatMap.mp he'
    exact auditEntriesFor_severity r c _ _ e hin

/-- C6: whenever `select_next_song` returns a song rather than the
no-eligible-song failure, that song is active: every candidate is drawn from
`get_eligible_songs`, whose filter requires `is_active`. -/
theorem select_next_song_active (r : Rules) (dbSongs : List Song) (c : Clock)
    (shuffle : List (Option String) → List (Option String)) (ctx : Context)
    (s : Song) (h : select_next_song r dbSongs c shuffle ctx = some s) :
    s.is_active = true :=
  pickFromBag_active r dbSongs c ctx _ _ s h

/-- C6 witness: over a catalog holding one active never-played Current song
and an empty rule set, selection returns that song, and it is active. -/
theorem select_next_song_active_witness :
    select_next_song fxCfgEmpty fxDb fxClock id {} = some fxSongFresh ∧
    fxSongFresh.is_active = true :=
  ⟨by decide, select_next_song_active fxCfgEmpty fxDb fxClock id {} fxSongFresh (by decide)⟩

/-- C7: the summary computation is a pure function of the fetched plays and
active songs — two runs over identical, unchanged inputs produce identical
summary statistics (the `generated_at` timestamp is not part of the summary
block). -/
theorem calculate_summary_deterministic (plays₁ plays₂ : List PlayRec)
    (songs₁ songs₂ : List Song) (hp : plays₁ = plays₂) (hs : songs₁ = songs₂) :
    calculate_summary plays₁ songs₁ = calculate_summary plays₂ songs₂ := by
  rw [hp, hs]

/-- C7 witness: two summary runs over the same concrete one-play history and
one-song library agree. -/
theorem calculate_summary_deterministic_witness :
    calculate_summary [fxPlay1] fxDb = calculate_summary [fxPlay1] fxDb :=
  calculate_summary_deterministic [fxPlay1] [fxPlay1] fxDb fxDb rfl rfl

/-- C8 counterexample: in `fxReportNoCurrent` no Current-category song was
played, so the Current share of rotation is 0% — outside [25%, 50%] — yet
the code appends no recommendation because the breakdown has no "Current"
key; every other threshold is unbreached and the result is empty. -/
theorem generate_recommendations_missing_current :
    (∀ e ∈ fxReportNoCurrent.category_breakdown, e.1 ≠ "Current") ∧
    generate_recommendations fxReportNoCurrent = [] := by
  refine ⟨by decide, ?_⟩
  norm_num [generate_recommendations, fxReportNoCurrent, fxSummaryOk, alookup]
  decide

/-- C8 (amended): each breached threshold appends exactly one recommendation
string — coverage < 50%, underplayed > 10, Current share outside [25%, 50%]
*provided the Current category appears in the breakdown* (i.e. at least one
Current play occurred), one per gender with share > 60%, violations > 20,
and skip rate > 5% — so the number of recommendations is the number of
breached thresholds. -/
theorem generate_recommendations_per_threshold (rpt : Report) :
    (generate_recommendations rpt).length =
      (if rpt.summary.library_coverage_percent < 50 then 1 else 0) +
      (if rpt.underplayed_songs.length > 10 then 1 else 0) +
      (match alookup "Current" rpt.category_breakdown with
       | none => 0
       | some stats => if stats.percentage < 25 ∨ stats.percentage > 50 then 1 else 0) +
      (rpt.gender_breakdown.filter (fun gd => decide (gd.2.percentage > 60))).length +
      (if rpt.rule_violations.length > 20 then 1 else 0) +
      (if (rpt.summary.skipped_plays : ℚ) > (rpt.summary.total_plays : ℚ) * (1/20) then 1 else 0) := by
  unfold generate_recommendations
  cases halk : alookup "Current" rpt.category_breakdown with
  | none =>
    simp only [List.length_append, length_ite_single, List.length_nil]
    rw [length_genderRecs]
  | some stats =>
    simp only [List.length_append]
    by_cases h1 : stats.percentage < 25
    · rw [if_pos h1, if_pos (Or.inl h1)]
      simp only [length_ite_single, List.length_singleton]
      rw [length_genderRecs]
    · by_cases h2 : stats.percentage > 50
      · rw [if_neg h1, if_pos h2, if_pos (Or.inr h2)]
        simp only [length_ite_single, List.length_singleton]
        rw [length_genderRecs]
      · rw [if_neg h1, if_neg h2, if_neg (not_or.mpr ⟨h1, h2⟩)]
        simp only [length_ite_single, List.length_nil]
        rw [length_genderRecs]

/-- C9: when no category in the weighted bag yields a song approved by the
constraint checker, `select_next_song` returns the no-eligible-song result
`none` — a normal value, not a raised error (the embedding is a total
function). -/
theorem select_next_song_no_eligible (r : Rules) (dbSongs : List Song) (c : Clock)
    (shuffle : List (Option String) → List (Option String)) (ctx : Context)
    (h : ∀ category ∈ shuffle ((get_category_for_hour r (ctx.hour.getD c.now_hour)).flatMap
        (fun cw => List.replicate cw.2 cw.1)),
      (get_eligible_songs dbSongs c category 180
        ((ctx.recent_plays.filterMap (fun p => p.song.map (·.artist))).take 5)).find?
        (fun song => (can_play_song r c song ctx).1) = none) :
    select_next_song r dbSongs c shuffle ctx = none :=
  pickFromBag_none r dbSongs c ctx _ _ h

/-- C9 witness: with an empty catalog no category of the default weighted
bag yields an approved song, and selection returns `none`. -/
theorem select_next_song_no_eligible_witness :
    select_next_song fxCfgEmpty [] fxClock id {} = none :=
  select_next_song_no_eligible fxCfgEmpty [] fxClock id {} (by decide)

/-- C10: a never-played song (`last_played` null) is never blocked by song
separation: the check returns no violation regardless of the configured
`song_separation`. -/
theorem check_song_separation_never_played (r : Rules) (c : Clock)
    (song : Song) (ctx : Context) (h : song.last_played = none) :
    check_song_separation r c song ctx = [] := by
  unfold check_song_separation
  rw [h]

/-- C10 witness: the never-played `fxSongFresh` passes song separation. -/
theorem check_song_separation_never_played_witness :
    fxSongFresh.last_played = none ∧
    check_song_separation fxCfgEmpty fxClock fxSongFresh {} = [] :=
  ⟨rfl, check_song_separation_never_played fxCfgEmpty fxClock fxSongFresh {} rfl⟩
